import Mathlib

/-!
Verification of the MindTriage Signal & Risk Analytics Engine.

This file gives a shallow embedding, in Lean 4, of the core analytic
functions of the repository (`baseline_engine.py`, `crisis_detector.py`
and the pure scoring/rotation helpers of `main.py`), and proves or
refutes the frozen specification claims about them.

Modelling conventions:
* Python `float` values are modelled as `ℚ` (all constants in the source
  are decimal literals and all claims are about exact thresholds); the one
  genuinely irrational operation, `statistics.pstdev`'s square root, is
  modelled in `ℝ`.
* Python `round(x, 2)` is modelled as `(round (x * 100) : ℤ) / 100` with
  Mathlib's `round`.  Python rounds half-to-even on binary floats; the two
  conventions agree except at exact half-cent ties, which no claim touches.
* Python `str` is Lean `String`; character-level processing works on
  `String.data`.  `str.lower`/`str.strip` are modelled for the ASCII texts
  the engine handles.
* Python dicts that are iterated or looked up by string key are modelled
  as association lists (`List (String × α)`), first match wins.
* `None`-able values are `Option`.
-/

/-! ## Shared string helpers -/

/-- `str.strip()`: remove whitespace from both ends (ASCII whitespace). -/
def pyStrip (s : String) : String :=
  ⟨((s.data.dropWhile Char.isWhitespace).reverse.dropWhile Char.isWhitespace).reverse⟩

/-- `str.lower()`: ASCII lower-casing (all engine inputs are ASCII). -/
def pyLower (s : String) : String := ⟨s.data.map Char.toLower⟩

/-- Value of a run of decimal digit characters. -/
def digitsToNat (ds : List Char) : ℕ :=
  ds.foldl (fun acc c => 10 * acc + (c.toNat - 48)) 0

/-- Python `round(x, 2)`: round to two decimal places. -/
def pyRound2 (q : ℚ) : ℚ := ((round (q * 100) : ℤ) : ℚ) / 100

/-- Python `round(x, 2)` on a real number (used for the standard deviation). -/
noncomputable def pyRound2R (x : ℝ) : ℝ := ((round (x * 100) : ℤ) : ℝ) / 100

/-! ## `baseline_engine.py`: number parsing and normalization -/

/-- The value denoted by the regex match `intDs "." fracDs` (or just `intDs`). -/
def decimalValue (intDs fracDs : List Char) : ℚ :=
  (digitsToNat intDs : ℚ) + (digitsToNat fracDs : ℚ) / (10 : ℚ) ^ fracDs.length

/-- Greedy parse of `-?\d+(\.\d+)?` starting at the head of `l` (the head is a
digit; `neg` records a consumed leading minus sign). -/
def parseNumAt (neg : Bool) (l : List Char) : ℚ :=
  let intDs := l.takeWhile Char.isDigit
  let rest := l.dropWhile Char.isDigit
  let fracDs :=
    match rest with
    | '.' :: r => r.takeWhile Char.isDigit
    | _ => []
  let mag := decimalValue intDs fracDs
  if neg then -mag else mag

/-- Leftmost match of `re.search(r"(-?\d+(\.\d+)?)", text)`: a match starts at
the first digit, or at a `-` immediately followed by a digit. -/
def findFirstNumber : List Char → Option ℚ
  | [] => none
  | c :: rest =>
    if c.isDigit then some (parseNumAt false (c :: rest))
    else if c = '-' && (match rest with | d :: _ => d.isDigit | [] => false) then
      some (parseNumAt true rest)
    else findFirstNumber rest

/-- `baseline_engine.parse_first_number`: first signed decimal number in free
text, `None` when the text is empty or has no digit. -/
def parse_first_number (text : String) : Option ℚ :=
  if text = "" then none else findFirstNumber text.data

/-- `baseline_engine.clamp`. -/
def clamp (value low high : ℚ) : ℚ := max low (min high value)

/-- `baseline_engine.normalize_scale`. -/
def normalize_scale (value source_min source_max target_max : ℚ) : ℚ :=
  if source_max = source_min then clamp value 0 target_max
  else clamp ((value - source_min) / (source_max - source_min) * target_max) 0 target_max

/-- `baseline_engine.normalize_yes_no`. -/
def normalize_yes_no (text : String) : Option Bool :=
  let lowered := pyLower (pyStrip text)
  if ["yes", "y", "true", "1"].contains lowered then some true
  else if ["no", "n", "false", "0"].contains lowered then some false
  else none

/-- `baseline_engine.normalize_social_value`. -/
def normalize_social_value (category : String) (raw : String) : Option ℚ :=
  let lowered := pyLower (pyStrip raw)
  if category = "isolation" then
    match normalize_yes_no raw with
    | none => none
    | some flag => some (if flag then 10 else 0)
  else if category = "support" then
    match normalize_yes_no raw with
    | none => none
    | some flag => some (if flag then 0 else 10)
  else if category = "connection" then
    if lowered = "connected" then some 0
    else if lowered = "neutral" then some 5
    else if lowered = "isolated" then some 10
    else none
  else none

/-- `baseline_engine.normalize_daily_answer`. -/
def normalize_daily_answer (category : String) (answer_text : String) :
    Option (String × ℚ) :=
  if category = "" then none
  else
    let numeric := parse_first_number answer_text
    if category = "mood" ∨ category = "anxiety" ∨ category = "energy" then
      match numeric with
      | none => none
      | some v => some (category ++ "_score", normalize_scale v 1 10 10)
    else if category = "sleep" then
      match numeric with
      | none => none
      | some v => some ("sleep_hours", clamp v 0 12)
    else if category = "hopelessness" then
      match numeric with
      | some v => some ("hopelessness_score", normalize_scale v 1 10 10)
      | none =>
        match normalize_yes_no answer_text with
        | none => none
        | some flag => some ("hopelessness_score", if flag then 10 else 0)
    else if category = "isolation" ∨ category = "support" ∨ category = "connection" then
      match normalize_social_value category answer_text with
      | none => none
      | some v => some ("social_score", v)
    else none

/-! ## `baseline_engine.py`: baseline statistics -/

/-- `statistics.mean`. -/
def listMean (l : List ℚ) : ℚ := l.sum / l.length

/-- Insertion into a sorted list, for `statistics.median`'s internal sort. -/
def insertSorted (x : ℚ) : List ℚ → List ℚ
  | [] => [x]
  | y :: ys => if x ≤ y then x :: y :: ys else y :: insertSorted x ys

/-- Sorting by insertion. -/
def sortQ (l : List ℚ) : List ℚ := l.foldr insertSorted []

/-- `statistics.median`: middle of the sorted data, or the average of the two
middle values for even-length data. -/
def listMedian (l : List ℚ) : ℚ :=
  let s := sortQ l
  let n := s.length
  if n % 2 = 1 then s.getD (n / 2) 0
  else (s.getD (n / 2 - 1) 0 + s.getD (n / 2) 0) / 2

/-- `statistics.pvariance`: population variance. -/
def pvariance (l : List ℚ) : ℚ :=
  ((l.map fun x => (x - listMean l) ^ 2).sum) / l.length

/-- `statistics.pstdev`: population standard deviation. -/
noncomputable def pstdev (l : List ℚ) : ℝ := Real.sqrt (pvariance l)

/-- The per-signal statistics dict built by `compute_signal_stats`. -/
structure SignalStats where
  mean : Option ℚ
  median : Option ℚ
  std : Option ℝ
  coverage_percent : ℚ
  samples : ℕ

/-- `baseline_engine.compute_signal_stats`. -/
noncomputable def compute_signal_stats (values : List ℚ) (total_days : ℕ) :
    SignalStats :=
  let sample_days := values.length
  let coverage : ℚ :=
    if total_days = 0 then 0 else pyRound2 ((sample_days : ℚ) / total_days * 100)
  if sample_days ≥ 7 ∧ coverage ≥ 70 then
    { mean := some (pyRound2 (listMean values))
      median := some (pyRound2 (listMedian values))
      std := some (if sample_days ≥ 2 then pyRound2R (pstdev values) else 0)
      coverage_percent := coverage
      samples := sample_days }
  else
    { mean := none, median := none, std := none
      coverage_percent := coverage, samples := sample_days }

/-! ## `baseline_engine.py`: drift classification -/

/-- `baseline_engine.classify_drift`. -/
def classify_drift (delta z_score : Option ℚ) : String :=
  match delta with
  | none => "missing"
  | some d =>
    match z_score with
    | some z =>
      if z ≤ -1 then "down"
      else if z ≥ 1 then "up"
      else if d ≤ -1 then "down" else if d ≥ 1 then "up" else "stable"
    | none =>
      if d ≤ -1 then "down" else if d ≥ 1 then "up" else "stable"

/-- The `mean`/`std` fields of a stored per-signal baseline dict, as read by
`compute_drift` (`baseline.get("mean")`, `baseline.get("std")`). -/
structure BaselineStat where
  mean : Option ℚ
  std : Option ℚ
deriving DecidableEq

/-- One per-signal entry of the drift map built by `compute_drift`. -/
structure DriftEntry where
  delta : Option ℚ
  z : Option ℚ
  status : String
deriving DecidableEq

/-- The per-signal body of the loop in `compute_drift`: delta and z-score
computation (`if std and std > 0` reduces to `0 < std` on numbers) followed by
`classify_drift`. -/
def compute_drift_entry (today_value : Option ℚ) (baseline : BaselineStat) :
    DriftEntry :=
  let dz : Option ℚ × Option ℚ :=
    match today_value, baseline.mean with
    | some t, some m =>
      let d := pyRound2 (t - m)
      let z :=
        match baseline.std with
        | some s => if 0 < s then some (pyRound2 (d / s)) else none
        | none => none
      (some d, z)
    | _, _ => (none, none)
  { delta := dz.1, z := dz.2, status := classify_drift dz.1 dz.2 }

/-- The six signal keys (`baseline_engine.SIGNAL_KEYS`). -/
def SIGNAL_KEYS : List String :=
  ["mood_score", "anxiety_score", "sleep_hours", "energy_score",
   "social_score", "hopelessness_score"]

/-- First-match lookup in an association list (Python `dict.get(k)`). -/
def lookupOpt (m : List (String × α)) (k : String) : Option α :=
  (m.find? fun p => p.1 == k).map Prod.snd

/-- The drift-map part of `baseline_engine.compute_drift`: one `DriftEntry`
per signal key, with a missing baseline dict read as `{}`. -/
def compute_drift (signals_today : List (String × ℚ))
    (baseline_signals : List (String × BaselineStat)) :
    List (String × DriftEntry) :=
  SIGNAL_KEYS.map fun key =>
    (key, compute_drift_entry (lookupOpt signals_today key)
      ((lookupOpt baseline_signals key).getD ⟨none, none⟩))

/-! ## `main.py`: rapid assessment scoring -/

/-- First-match lookup with default `""` (Python `answers_by_slug.get(slug, "")`). -/
def dictGetD (m : List (String × String)) (k : String) : String :=
  ((m.find? fun p => p.1 == k).map Prod.snd).getD ""

/-- `main.parse_numeric`: keep the digit characters of `text`, read them as a
single integer, `None` when no digit occurs. -/
def parse_numeric (text : String) : Option ℕ :=
  let cleaned := text.data.filter Char.isDigit
  if cleaned = [] then none else some (digitsToNat cleaned)

/-- `main.is_yes`. -/
def is_yes (value : String) : Option Bool :=
  if value = "" then none
  else
    let lowered := pyLower (pyStrip value)
    if ["yes", "y", "true", "1"].contains lowered then some true
    else if ["no", "n", "false", "0"].contains lowered then some false
    else none

/-- `main.is_choice`. -/
def is_choice (value target : String) : Bool :=
  pyLower (pyStrip value) == pyLower (pyStrip target)

/-- `main.RapidExplainabilityItem` (weights are small integers). -/
structure RapidExplainabilityItem where
  signal : String
  weight : ℤ
  reason : String
deriving DecidableEq

/-- Running state of `compute_rapid_risk`: the `score` counter plus the
`signals` and `explanations` lists appended by `add_signal`. -/
structure RapidAcc where
  score : ℤ
  signals : List String
  explanations : List RapidExplainabilityItem
deriving DecidableEq

/-- One additive rule of `compute_rapid_risk`: when `cond` holds, add `w` to
the score and append the labelled explanation (`score += w; add_signal(...)`). -/
def rapidStep (acc : RapidAcc) (cond : Bool) (w : ℤ) (sig reason : String) :
    RapidAcc :=
  if cond then
    ⟨acc.score + w, acc.signals ++ [reason], acc.explanations ++ [⟨sig, w, reason⟩]⟩
  else acc

/-- The additive rule battery of `main.compute_rapid_risk` (everything before
the self-harm-plan override).  Python truthiness of `Optional[bool]` reads as
`= some true`, and `is False` as `= some false`. -/
def rapid_additive (a : List (String × String)) : RapidAcc :=
  let acc : RapidAcc := ⟨0, [], []⟩
  let mood := parse_numeric (dictGetD a "rapid_mood")
  let acc := rapidStep acc (match mood with | some v => v ≤ 3 | none => false)
    3 "low_mood" "Low mood rating"
  let anxiety := parse_numeric (dictGetD a "rapid_anxiety")
  let acc := rapidStep acc (match anxiety with | some v => 8 ≤ v | none => false)
    3 "high_anxiety" "High anxiety rating"
  let acc := rapidStep acc (is_yes (dictGetD a "rapid_hopeless") == some true)
    4 "hopelessness" "Reported hopelessness"
  let acc := rapidStep acc (is_yes (dictGetD a "rapid_isolation") == some true)
    2 "isolation" "Reported isolation"
  let acc := rapidStep acc (is_choice (dictGetD a "rapid_sleep") "Poor")
    1 "poor_sleep" "Poor sleep"
  let acc := rapidStep acc (is_choice (dictGetD a "rapid_appetite") "Poor")
    1 "low_appetite" "Low appetite"
  let acc := rapidStep acc (is_yes (dictGetD a "rapid_support") == some false)
    1 "limited_support" "Limited support right now"
  let acc := rapidStep acc (is_yes (dictGetD a "rapid_substance") == some true)
    1 "substance_use" "Substance use today"
  let acc := rapidStep acc (is_yes (dictGetD a "rapid_self_harm_thoughts") == some true)
    6 "self_harm_thoughts" "Self-harm thoughts"
  acc

/-- `main.crisis_resources`. -/
def crisis_resources : List String :=
  ["If you feel unsafe, contact local emergency services.",
   "Reach out to a trusted person or local crisis line.",
   "If you are in the U.S., you can call or text 988 for immediate support."]

/-- `main.recommended_actions`. -/
def recommended_actions (level : String) : List String :=
  if level = "RED" then
    ["Pause and focus on slow breathing for 2 minutes.",
     "Move to a safer, quieter space if possible.",
     "Reach out to someone you trust and let them know you need support."]
  else if level = "YELLOW" then
    ["Do a 2-minute grounding exercise (name 5 things you can see).",
     "Drink water and take a short break from screens.",
     "Write down one small next step you can do today."]
  else
    ["Take a slow breath and notice how your body feels.",
     "Pick one small, kind action for yourself in the next hour.",
     "Stay connected to a supportive person if you can."]

/-- `list(dict.fromkeys(xs))`: deduplicate keeping first occurrences in order. -/
def dedupFirst (l : List String) : List String :=
  l.foldl (fun acc x => if acc.contains x then acc else acc ++ [x]) []

/-- The tuple returned by `main.compute_rapid_risk`. -/
structure RapidResult where
  level : String
  score : ℤ
  signals : List String
  explanations : List RapidExplainabilityItem
  actions : List String
  crisis_guidance : Option (List String)
deriving DecidableEq

/-- `main.compute_rapid_risk`. -/
def compute_rapid_risk (a : List (String × String)) : RapidResult :=
  let acc := rapid_additive a
  let self_harm_plan := is_yes (dictGetD a "rapid_self_harm_plan") == some true
  if self_harm_plan then
    let before := acc.score
    let score := max before 18
    let acc : RapidAcc :=
      ⟨score, acc.signals ++ ["Self-harm plan or intent"],
        acc.explanations ++ [⟨"self_harm_plan", max 0 (score - before),
          "Self-harm plan or intent"⟩]⟩
    ⟨"RED", acc.score, dedupFirst acc.signals, acc.explanations,
      recommended_actions "RED", some crisis_resources⟩
  else if acc.score ≥ 12 then
    ⟨"RED", acc.score, dedupFirst acc.signals, acc.explanations,
      recommended_actions "RED", some crisis_resources⟩
  else if acc.score ≥ 6 then
    ⟨"YELLOW", acc.score, dedupFirst acc.signals, acc.explanations,
      recommended_actions "YELLOW", none⟩
  else
    ⟨"GREEN", acc.score, dedupFirst acc.signals, acc.explanations,
      recommended_actions "GREEN", none⟩

/-- `main.compute_rapid_confidence_score`. -/
def compute_rapid_confidence_score (time_taken_seconds : ℚ)
    (quality_flags : List String) : ℚ :=
  let confidence : ℚ := 6/10
  let confidence :=
    if time_taken_seconds ≥ 60 then confidence + 15/100
    else if 35 ≤ time_taken_seconds ∧ time_taken_seconds ≤ 59 then confidence + 10/100
    else confidence
  let confidence := if quality_flags.contains "too_fast" then confidence - 20/100 else confidence
  let confidence := if quality_flags.contains "failed_attention_check" then confidence - 25/100 else confidence
  let confidence := if quality_flags.contains "duplicate_answers" then confidence - 10/100 else confidence
  let confidence := if quality_flags.contains "patterned_answers" then confidence - 10/100 else confidence
  let confidence := if quality_flags.contains "extreme_only_answers" then confidence - 10/100 else confidence
  max (5/100) (min (95/100) confidence)

/-- The `values` list collected by `main.detect_patterned_answers`: stripped,
lower-cased answers of all non-attention-check slugs whose stripped value is
non-empty. -/
def patterned_values (answers : List (String × String)) : List String :=
  answers.filterMap fun p =>
    if p.1 == "rapid_attention_check" then none
    else if pyStrip p.2 == "" then none
    else some (pyLower (pyStrip p.2))

/-- The `max(counts.values())` of `detect_patterned_answers`: the Python code
groups `values` into a count dict and takes the maximum count; the maximum
multiplicity over occurrences equals the maximum over distinct keys. -/
def most_common_count (values : List String) : ℕ :=
  (values.map fun v => values.count v).foldr max 0

/-- `main.detect_patterned_answers`. -/
def detect_patterned_answers (answers : List (String × String)) : Bool :=
  let values := patterned_values answers
  if values.length < 5 then false
  else
    let mc := most_common_count values
    if mc = values.length then true
    else decide ((mc : ℚ) / values.length ≥ 8/10)

/-! ## `main.py`: input quality assessment -/

/-- Regex `\w`: a word character (ASCII letters, digits, underscore). -/
def isWordChar (c : Char) : Bool := c.isAlphanum || c == '_'

/-- `re.findall(r"\b\w+\b", s)`: the maximal runs of word characters. -/
def tokensOf : List Char → List (List Char)
  | [] => []
  | c :: rest =>
    if isWordChar c then
      (c :: rest.takeWhile isWordChar) :: tokensOf (rest.dropWhile isWordChar)
    else tokensOf rest
termination_by l => l.length
decreasing_by
  · simpa using Nat.lt_succ_of_le ((rest.dropWhile_sublist isWordChar).length_le)
  · simp

/-- Regex `(.)\1{4,}`: some character occurs at least 5 times in a row. -/
def hasCharRun5 : List Char → Bool
  | c1 :: c2 :: c3 :: c4 :: c5 :: rest =>
    if c1 == c2 && c2 == c3 && c3 == c4 && c4 == c5 then true
    else hasCharRun5 (c2 :: c3 :: c4 :: c5 :: rest)
  | _ => false

/-- Membership in the consonant class `[bcdfghjklmnpqrstvwxyz]`. -/
def isConsonant (c : Char) : Bool :=
  "bcdfghjklmnpqrstvwxyz".data.contains c

/-- Regex `[bcdfghjklmnpqrstvwxyz]{5,}`: at least 5 consecutive consonants. -/
def hasConsonantRun5 : List Char → Bool
  | c1 :: c2 :: c3 :: c4 :: c5 :: rest =>
    if isConsonant c1 && isConsonant c2 && isConsonant c3 && isConsonant c4
        && isConsonant c5 then true
    else hasConsonantRun5 (c2 :: c3 :: c4 :: c5 :: rest)
  | _ => false

/-- The profanity token set of `assess_input_quality`. -/
def profanitySet : List (List Char) :=
  ["fuck".data, "shit".data, "bitch".data, "asshole".data, "damn".data, "cunt".data]

/-- Flag trigger: `len(cleaned) < 30`. -/
def tooShortFlag (text : String) : Bool :=
  decide ((pyStrip text).length < 30)

/-- Flag trigger: fewer than 5 word tokens. -/
def lowWordCountFlag (text : String) : Bool :=
  decide ((tokensOf (pyLower (pyStrip text)).data).length < 5)

/-- Flag trigger: a character repeated at least 5 times in a row. -/
def repeatedCharactersFlag (text : String) : Bool :=
  hasCharRun5 (pyLower (pyStrip text)).data

/-- Flag trigger: at least 5 consecutive consonants. -/
def keyboardSmashFlag (text : String) : Bool :=
  hasConsonantRun5 (pyLower (pyStrip text)).data

/-- Flag trigger: unique-token ratio below one half (`if tokens:` guard, then
`len(set(tokens)) / len(tokens) < 0.5`). -/
def repeatedTokensFlag (text : String) : Bool :=
  let tokens := tokensOf (pyLower (pyStrip text)).data
  tokens ≠ [] && decide ((tokens.dedup.length : ℚ) / tokens.length < 1/2)

/-- Flag trigger: all tokens are in the profanity set (with the `if tokens:`
guard). -/
def profanityOnlyFlag (text : String) : Bool :=
  let tokens := tokensOf (pyLower (pyStrip text)).data
  tokens ≠ [] && tokens.all (profanitySet.contains ·)

/-- Flag trigger: the cleaned lower-cased text equals a normalized recent
submission (with the `if normalized_recent:` guard). -/
def duplicateRecentFlag (text : String) (recent_texts : List String) : Bool :=
  let normalized_recent := recent_texts.map fun t => pyLower (pyStrip t)
  normalized_recent ≠ [] && normalized_recent.contains (pyLower (pyStrip text))

/-- Flag trigger: at least 4 submissions in the short window. -/
def rapidSubmissionsFlag (short_window_count : ℕ) : Bool :=
  decide (short_window_count ≥ 4)

/-- The ordered flag list built by `assess_input_quality`. -/
def quality_flags_of (text : String) (recent_texts : List String)
    (short_window_count : ℕ) : List String :=
  (if tooShortFlag text then ["too_short"] else []) ++
  (if lowWordCountFlag text then ["low_word_count"] else []) ++
  (if repeatedCharactersFlag text then ["repeated_characters"] else []) ++
  (if keyboardSmashFlag text then ["keyboard_smash"] else []) ++
  (if repeatedTokensFlag text then ["repeated_tokens"] else []) ++
  (if profanityOnlyFlag text then ["profanity_only"] else []) ++
  (if duplicateRecentFlag text recent_texts then ["duplicate_recent"] else []) ++
  (if rapidSubmissionsFlag short_window_count then ["rapid_submissions"] else [])

/-- The `deductions` dict of `assess_input_quality` (`deductions.get(flag, 0)`). -/
def quality_deduction (flag : String) : ℤ :=
  if flag = "too_short" then 15
  else if flag = "low_word_count" then 15
  else if flag = "repeated_characters" then 10
  else if flag = "repeated_tokens" then 10
  else if flag = "keyboard_smash" then 10
  else if flag = "profanity_only" then 20
  else if flag = "duplicate_recent" then 25
  else if flag = "rapid_submissions" then 10
  else 0

/-- The human label map of `main.summarize_quality_flags`. -/
def quality_label (flag : String) : String :=
  if flag = "too_short" then "Too short"
  else if flag = "low_word_count" then "Not enough words"
  else if flag = "repeated_characters" then "Repeated characters"
  else if flag = "repeated_tokens" then "Repetitive wording"
  else if flag = "keyboard_smash" then "Looks like keyboard mash"
  else if flag = "profanity_only" then "Profanity only"
  else if flag = "duplicate_recent" then "Same as a recent entry"
  else if flag = "rapid_submissions" then "Many submissions in a short time"
  else if flag = "repeated_across_fields" then "Same answer across fields"
  else flag

/-- `main.summarize_quality_flags`. -/
def summarize_quality_flags (flags : List String) : String :=
  if flags = [] then "Looks good."
  else String.intercalate "; " ((flags.take 3).map quality_label)

/-- The dict returned by `assess_input_quality`. -/
structure QualityResult where
  quality_score : ℤ
  flags : List String
  is_low_quality : Bool
  reason_summary : String
deriving DecidableEq

/-- `main.assess_input_quality`. -/
def assess_input_quality (text : String) (recent_texts : List String)
    (short_window_count : ℕ) : QualityResult :=
  let flags := quality_flags_of text recent_texts short_window_count
  let score := max 0 (min 100 (100 - ((flags.map quality_deduction).sum)))
  { quality_score := score
    flags := flags
    is_low_quality := decide (score < 60)
    reason_summary := summarize_quality_flags flags }

/-! ## `crisis_detector.py` -/

/-- Whole-word (`\b ... \b`) match of the literal phrase `pat` at the head of
`s`, where `prev` is the character just before `s` (all phrases start and end
with word characters, so the boundary tests reduce to the neighbours not being
word characters). -/
def phraseAt (pat : List Char) (prev : Option Char) (s : List Char) : Bool :=
  (match prev with | none => true | some c => !isWordChar c) &&
  pat.isPrefixOf s &&
  (match (s.drop pat.length).head? with | none => true | some c => !isWordChar c)

/-- Search for a whole-word match of `pat` anywhere in the remaining text. -/
def phraseSearchAux (pat : List Char) : Option Char → List Char → Bool
  | prev, [] => phraseAt pat prev []
  | prev, c :: rest => phraseAt pat prev (c :: rest) || phraseSearchAux pat (some c) rest

/-- `re.search(r"\b<phrase>\b", s)` viewed as a Boolean. -/
def matchesWordPhrase (pat : String) (s : String) : Bool :=
  phraseSearchAux pat.data none s.data

/-- `crisis_detector.HIGH_PATTERNS`, each paired with its `strip(r"\b")`-ed
name; the alternation pattern is expanded into its four literal phrases. -/
def HIGH_PATTERNS : List (String × List String) :=
  [("kill myself", ["kill myself"]),
   ("i will kill myself", ["i will kill myself"]),
   ("i am going to kill myself", ["i am going to kill myself"]),
   ("commit suicide", ["commit suicide"]),
   ("suicide", ["suicide"]),
   ("suicidal", ["suicidal"]),
   ("end my life", ["end my life"]),
   ("end it all", ["end it all"]),
   ("want to die", ["want to die"]),
   ("plan to (die|kill myself|end my life|end it)",
    ["plan to die", "plan to kill myself", "plan to end my life", "plan to end it"])]

/-- `crisis_detector.ELEVATED_TERMS`. -/
def ELEVATED_TERMS : List String :=
  ["self-harm", "self harm", "hurt myself", "cut myself", "overdose",
   "no reason to live", "can\x27t go on", "cant go on", "no way out",
   "better off dead", "end it", "hopeless"]

/-- Plain substring test (Python `term in combined`). -/
def isSubstringAux (pat : List Char) : List Char → Bool
  | [] => pat == []
  | c :: rest => pat.isPrefixOf (c :: rest) || isSubstringAux pat rest

/-- Python `pat in s` on strings. -/
def strContains (s pat : String) : Bool := isSubstringAux pat.data s.data

/-- `crisis_detector._find_matches` applied to `HIGH_PATTERNS`: the stripped
names of the patterns that match, in pattern order. -/
def high_matches (combined : String) : List String :=
  HIGH_PATTERNS.filterMap fun p =>
    if p.2.any (fun phrase => matchesWordPhrase phrase combined) then some p.1 else none

/-- The structured flags read by `detect_crisis` from its `structured` dict:
`self_harm_plan`/`self_harm_intent` record the truthiness of the stored value,
`self_harm_thoughts` records whether the stored value `is True`, and the two
scores are present exactly when the stored value is a number. -/
structure CrisisStructured where
  self_harm_plan : Bool
  self_harm_intent : Bool
  self_harm_thoughts : Bool
  hopelessness_score : Option ℚ
  risk_score : Option ℚ
deriving DecidableEq

/-- The dict returned by `detect_crisis`. -/
structure CrisisResult where
  is_crisis : Bool
  level : String
  matched_terms : List String
  reason : String
deriving DecidableEq

/-- The ELEVATED-tier condition of `detect_crisis`:
`(hopeless_flag and self_harm_hint) or (high_risk and alarming_text)`. -/
def elevated_condition (combined : String) (structured : CrisisStructured) : Bool :=
  let hopeless_flag :=
    match structured.hopelessness_score with
    | some h => decide (8 ≤ h)
    | none => false
  let self_harm_hint :=
    structured.self_harm_thoughts ||
      (["self-harm", "self harm", "hurt myself", "cut myself"].any fun t =>
        strContains combined t)
  let alarming_text :=
    ["can\x27t go on", "no way out", "better off dead"].any fun t =>
      strContains combined t
  let high_risk :=
    match structured.risk_score with
    | some r => decide (18 ≤ r)
    | none => false
  (hopeless_flag && self_harm_hint) || (high_risk && alarming_text)

/-- `crisis_detector.detect_crisis`. -/
def detect_crisis (texts : List String) (structured : CrisisStructured) :
    CrisisResult :=
  let combined := pyLower (String.intercalate " " texts)
  let base_matches := high_matches combined
  let all_high :=
    if structured.self_harm_plan || structured.self_harm_intent then
      base_matches ++ ["self_harm_plan"]
    else base_matches
  if all_high ≠ [] then
    ⟨true, "high", dedupFirst all_high, "Explicit self-harm intent or plan detected."⟩
  else
    let elevated_matches := ELEVATED_TERMS.filter fun t => strContains combined t
    if elevated_condition combined structured then
      ⟨true, "elevated", dedupFirst elevated_matches,
        "Elevated risk signals with distress language."⟩
    else
      ⟨false, "none", dedupFirst elevated_matches, ""⟩

/-! ## `main.py`: rotation scheduler

`build_rotation_seed` hashes `"{user_id}:{date}:{kind}:{salt}"` with
`hashlib.sha256` and reads the first 16 hex digits as an integer;
`select_questions_with_seed` shuffles with `random.Random(seed)` (a Mersenne
Twister).  Both library primitives are embedded below from their published
algorithms. -/

/-- Truncation to 32 bits. -/
def w32 (n : ℕ) : ℕ := n % 4294967296

/-- 32-bit right rotation (arguments already below `2 ^ 32`). -/
def rotr32 (x k : ℕ) : ℕ := x / 2 ^ k + x % 2 ^ k * 2 ^ (32 - k)

/-- UTF-8 encoding of one character. -/
def charUtf8 (c : Char) : List ℕ :=
  let n := c.toNat
  if n < 128 then [n]
  else if n < 2048 then [192 + n / 64, 128 + n % 64]
  else if n < 65536 then [224 + n / 4096, 128 + n / 64 % 64, 128 + n % 64]
  else [240 + n / 262144, 128 + n / 4096 % 64, 128 + n / 64 % 64, 128 + n % 64]

/-- `str.encode("utf-8")` as a byte list. -/
def utf8Bytes (s : String) : List ℕ := (s.data.map charUtf8).flatten

/-- The SHA-256 round constants. -/
def shaK : List ℕ :=
  [1116352408, 1899447441, 3049323471, 3921009573, 961987163,
   1508970993, 2453635748, 2870763221, 3624381080, 310598401,
   607225278, 1426881987, 1925078388, 2162078206, 2614888103,
   3248222580, 3835390401, 4022224774, 264347078, 604807628,
   770255983, 1249150122, 1555081692, 1996064986, 2554220882,
   2821834349, 2952996808, 3210313671, 3336571891, 3584528711,
   113926993, 338241895, 666307205, 773529912, 1294757372,
   1396182291, 1695183700, 1986661051, 2177026350, 2456956037,
   2730485921, 2820302411, 3259730800, 3345764771, 3516065817,
   3600352804, 4094571909, 275423344, 430227734, 506948616,
   659060556, 883997877, 958139571, 1322822218, 1537002063,
   1747873779, 1955562222, 2024104815, 2227730452, 2361852424,
   2428436474, 2756734187, 3204031479, 3329325298]

/-- The SHA-256 initial hash value. -/
def shaH0 : List ℕ :=
  [1779033703, 3144134277, 1013904242, 2773480762,
   1359893119, 2600822924, 528734635, 1541459225]

/-- Big-endian 8-byte encoding of a length in bits. -/
def beBytes8 (n : ℕ) : List ℕ :=
  (List.range 8).map fun i => n / 2 ^ (8 * (7 - i)) % 256

/-- SHA-256 message padding: `0x80`, zeros to 56 mod 64, 8 length bytes. -/
def sha256Pad (msg : List ℕ) : List ℕ :=
  let len := msg.length
  let zeros := (64 - (len + 9) % 64) % 64
  msg ++ [0x80] ++ List.replicate zeros 0 ++ beBytes8 (8 * len)

/-- Group bytes into big-endian 32-bit words. -/
def bytesToWords : List ℕ → List ℕ
  | b0 :: b1 :: b2 :: b3 :: rest =>
    (b0 * 16777216 + b1 * 65536 + b2 * 256 + b3) :: bytesToWords rest
  | _ => []

/-- Split a word list into 16-word chunks. -/
def chunks16 : List ℕ → List (List ℕ)
  | [] => []
  | w :: ws => ((w :: ws).take 16) :: chunks16 ((w :: ws).drop 16)
termination_by l => l.length
decreasing_by simp [List.length_drop]; omega

/-- SHA-256 small sigma 0. -/
def smallSigma0 (x : ℕ) : ℕ := rotr32 x 7 ^^^ rotr32 x 18 ^^^ x / 2 ^ 3

/-- SHA-256 small sigma 1. -/
def smallSigma1 (x : ℕ) : ℕ := rotr32 x 17 ^^^ rotr32 x 19 ^^^ x / 2 ^ 10

/-- SHA-256 big Sigma 0. -/
def bigSigma0 (x : ℕ) : ℕ := rotr32 x 2 ^^^ rotr32 x 13 ^^^ rotr32 x 22

/-- SHA-256 big Sigma 1. -/
def bigSigma1 (x : ℕ) : ℕ := rotr32 x 6 ^^^ rotr32 x 11 ^^^ rotr32 x 25

/-- SHA-256 choose function (`not x` is the 32-bit complement). -/
def shaCh (x y z : ℕ) : ℕ := (x &&& y) ^^^ ((x ^^^ 4294967295) &&& z)

/-- SHA-256 majority function. -/
def shaMaj (x y z : ℕ) : ℕ := (x &&& y) ^^^ (x &&& z) ^^^ (y &&& z)

/-- Extend a 16-word chunk to the 64-word message schedule. -/
def sha256Schedule (chunk : List ℕ) : List ℕ :=
  (List.range 48).foldl
    (fun w _ =>
      let n := w.length
      w ++ [w32 (smallSigma1 (w.getD (n - 2) 0) + w.getD (n - 7) 0 +
        smallSigma0 (w.getD (n - 15) 0) + w.getD (n - 16) 0)])
    chunk

/-- One SHA-256 compression round on the register list `[a,b,c,d,e,f,g,h]`. -/
def sha256Round (ws : List ℕ) (st : List ℕ) (i : ℕ) : List ℕ :=
  let a := st.getD 0 0
  let b := st.getD 1 0
  let c := st.getD 2 0
  let d := st.getD 3 0
  let e := st.getD 4 0
  let f := st.getD 5 0
  let g := st.getD 6 0
  let h := st.getD 7 0
  let t1 := w32 (h + bigSigma1 e + shaCh e f g + shaK.getD i 0 + ws.getD i 0)
  let t2 := w32 (bigSigma0 a + shaMaj a b c)
  [w32 (t1 + t2), a, b, c, w32 (d + t1), e, f, g]

/-- SHA-256 compression of one 16-word chunk into the running hash. -/
def sha256Compress (h : List ℕ) (chunk : List ℕ) : List ℕ :=
  let ws := sha256Schedule chunk
  let out := (List.range 64).foldl (sha256Round ws) h
  (List.range 8).map fun i => w32 (h.getD i 0 + out.getD i 0)

/-- SHA-256 of a byte string, as the list of the 8 output words. -/
def sha256Words (msg : List ℕ) : List ℕ :=
  (chunks16 (bytesToWords (sha256Pad msg))).foldl sha256Compress shaH0

/-- The lowercase hex character of a nibble. -/
def hexChar (n : ℕ) : Char :=
  if n < 10 then Char.ofNat (48 + n) else Char.ofNat (87 + n)

/-- Fixed-width big-endian lowercase hex encoding. -/
def toHexFixed : ℕ → ℕ → List Char
  | 0, _ => []
  | k + 1, n => toHexFixed k (n / 16) ++ [hexChar (n % 16)]

/-- `hashlib.sha256(...).hexdigest()` as a character list. -/
def sha256HexDigest (msg : List ℕ) : List Char :=
  ((sha256Words msg).map (toHexFixed 8)).flatten

/-- Value of one hex digit character (`int(c, 16)` for `0-9a-f`). -/
def hexDigitVal (c : Char) : ℕ :=
  if c.isDigit then c.toNat - 48 else c.toNat - 87

/-- `int(s, 16)` for a lowercase hex string. -/
def hexVal (l : List Char) : ℕ :=
  l.foldl (fun acc c => 16 * acc + hexDigitVal c) 0

/-- `main.ROTATION_SALT`. -/
def ROTATION_SALT : String := "LOCAL_ROTATION_SALT_CHANGE_ME"

/-- The f-string `f"{user_id}:{target_date.isoformat()}:{kind}:{ROTATION_SALT}"`
(the target date is supplied as its ISO string). -/
def rotation_seed_material (user_id : ℕ) (date_iso kind : String) : String :=
  toString user_id ++ ":" ++ date_iso ++ ":" ++ kind ++ ":" ++ ROTATION_SALT

/-- `main.build_rotation_seed`. -/
def build_rotation_seed (user_id : ℕ) (date_iso kind : String) : ℕ :=
  hexVal ((sha256HexDigest (utf8Bytes (rotation_seed_material user_id date_iso kind))).take 16)

/-- 32-bit wrap of a (possibly negative) integer. -/
def w32i (z : ℤ) : ℕ := (z % 4294967296).toNat

/-- Total in-bounds array write. -/
def arrSet (a : Array ℕ) (i : ℕ) (v : ℕ) : Array ℕ :=
  if h : i < a.size then a.set ⟨i, h⟩ v else a

/-- MT19937 `init_genrand`: fill the 624-word state from a 32-bit seed. -/
def mtInitGenrand (s : ℕ) : Array ℕ :=
  (List.range 623).foldl
    (fun arr i =>
      let prev := arr.getD i 0
      arr.push (w32 (1812433253 * (prev ^^^ prev / 1073741824) + (i + 1))))
    #[w32 s]

/-- CPython splits the absolute seed value into 32-bit little-endian words to
key `init_by_array`; rotation seeds are below `2 ^ 64`, giving 1 or 2 words. -/
def seedKey (n : ℕ) : List ℕ :=
  if n < 4294967296 then [n] else [n % 4294967296, n / 4294967296]

/-- One step of the first mixing loop of MT19937 `init_by_array`. -/
def mtMix1 (key : List ℕ) (st : Array ℕ × ℕ × ℕ) : Array ℕ × ℕ × ℕ :=
  let mt := st.1
  let i := st.2.1
  let j := st.2.2
  let prev := mt.getD (i - 1) 0
  let v := w32 ((mt.getD i 0 ^^^ w32 ((prev ^^^ prev / 1073741824) * 1664525))
    + key.getD j 0 + j)
  let mt := arrSet mt i v
  let i := i + 1
  let j := j + 1
  let p := if i ≥ 624 then (arrSet mt 0 (mt.getD 623 0), 1) else (mt, i)
  (p.1, p.2, if j ≥ key.length then 0 else j)

/-- One step of the second mixing loop of MT19937 `init_by_array`. -/
def mtMix2 (st : Array ℕ × ℕ) : Array ℕ × ℕ :=
  let mt := st.1
  let i := st.2
  let prev := mt.getD (i - 1) 0
  let v := w32i (((mt.getD i 0 ^^^ w32 ((prev ^^^ prev / 1073741824) * 1566083941)) : ℤ) - i)
  let mt := arrSet mt i v
  let i := i + 1
  if i ≥ 624 then (arrSet mt 0 (mt.getD 623 0), 1) else (mt, i)

/-- MT19937 `init_by_array`. -/
def mtInitByArray (key : List ℕ) : Array ℕ :=
  let mt := mtInitGenrand 19650218
  let k1 := max 624 key.length
  let st1 := (List.range k1).foldl (fun st _ => mtMix1 key st) (mt, 1, 0)
  let st2 := (List.range 623).foldl (fun st _ => mtMix2 st) (st1.1, st1.2.1)
  arrSet st2.1 0 2147483648

/-- MT19937 generator state: the 624-word array and the next index. -/
structure MTState where
  mt : Array ℕ
  idx : ℕ
deriving DecidableEq

/-- `random.Random(seed)`: seed via `init_by_array`, next index 624. -/
def mtInit (seed : ℕ) : MTState := ⟨mtInitByArray (seedKey seed), 624⟩

/-- The MT19937 twist: regenerate all 624 words in place. -/
def mtTwist (mt : Array ℕ) : Array ℕ :=
  (List.range 624).foldl
    (fun m i =>
      let y := (m.getD i 0 &&& 2147483648) + (m.getD ((i + 1) % 624) 0 &&& 2147483647)
      let v := m.getD ((i + 397) % 624) 0 ^^^ y / 2 ^^^ (if y % 2 = 1 then 2567483615 else 0)
      arrSet m i v)
    mt

/-- `genrand_uint32`: twist when exhausted, then temper and emit one word. -/
def mtNext (st : MTState) : ℕ × MTState :=
  let st := if st.idx ≥ 624 then (⟨mtTwist st.mt, 0⟩ : MTState) else st
  let y := st.mt.getD st.idx 0
  let y := y ^^^ y / 2048
  let y := y ^^^ (y * 128 &&& 2636928640)
  let y := y ^^^ (y * 32768 &&& 4022730752)
  let y := y ^^^ y / 262144
  (y, ⟨st.mt, st.idx + 1⟩)

/-- `getrandbits(k)` for `k ≤ 32`: one generated word shifted right. -/
def mtGetrandbits (k : ℕ) (st : MTState) : ℕ × MTState :=
  let p := mtNext st
  (p.1 / 2 ^ (32 - k), p.2)

/-- `int.bit_length()`. -/
def bitLength (n : ℕ) : ℕ := if n = 0 then 0 else Nat.log2 n + 1

/-- The rejection loop of `Random._randbelow`, with fuel (the Python loop
retries until a draw is below `n`; 64 retries never run out in practice and
determinism is unaffected). -/
def mtRandbelowAux (n k : ℕ) : ℕ → MTState → ℕ × MTState
  | 0, st => (0, st)
  | fuel + 1, st =>
    let p := mtGetrandbits k st
    if p.1 < n then p else mtRandbelowAux n k fuel p.2

/-- `Random._randbelow(n)`. -/
def mtRandbelow (n : ℕ) (st : MTState) : ℕ × MTState :=
  mtRandbelowAux n (bitLength n) 64 st

/-- Total array swap. -/
def arrSwap (a : Array α) (i j : ℕ) : Array α :=
  if h : i < a.size ∧ j < a.size then
    (a.set ⟨i, h.1⟩ (a.get ⟨j, h.2⟩)).set ⟨j, by simpa using h.2⟩ (a.get ⟨i, h.1⟩)
  else a

/-- `random.Random.shuffle`: Fisher–Yates over `i = len-1, …, 1` with
`j = _randbelow(i + 1)`. -/
def pyShuffle (l : List α) (st : MTState) : List α × MTState :=
  let res := (List.range (l.length - 1)).foldl
    (fun (p : Array α × MTState) t =>
      let i := l.length - 1 - t
      let q := mtRandbelow (i + 1) p.2
      (arrSwap p.1 i q.1, q.2))
    (l.toArray, st)
  (res.1.toList, res.2)

/-- A question dict as used by the rotation scheduler: `q["id"]` and
`q.get("category")`. -/
structure Question where
  id : ℕ
  category : Option String
deriving DecidableEq

/-- `q.get("category") in missing_categories` (a missing category is never a
member). -/
def inMissing (missing_categories : List String) (q : Question) : Bool :=
  match q.category with
  | some c => missing_categories.contains c
  | none => false

/-- `main.select_questions_with_seed`. -/
def select_questions_with_seed (questions : List Question)
    (missing_categories : List String) (recent_question_ids : List ℕ)
    (exclude_ids : List ℕ) (count : ℤ) (seed : ℕ) : List Question :=
  if count ≤ 0 then []
  else
    let candidates := questions.filter fun q => !exclude_ids.contains q.id
    if candidates = [] then []
    else
      let fresh := candidates.filter fun q => !recent_question_ids.contains q.id
      let ordered :=
        if count ≤ (fresh.length : ℤ) then fresh
        else fresh ++ candidates.filter fun q => recent_question_ids.contains q.id
      let missing := ordered.filter (inMissing missing_categories)
      let others := ordered.filter fun q => !inMissing missing_categories q
      let p1 := pyShuffle missing (mtInit seed)
      let p2 := pyShuffle others p1.2
      let selected := p1.1.take count.toNat
      if selected.length < count.toNat then
        selected ++ p2.1.take (count.toNat - selected.length)
      else selected

/-! ## Claim theorems -/

/-- C1: if the self-harm plan/intent answer is affirmative, `compute_rapid_risk`
forces level `RED` and a score of at least 18 (even when the additive total is
lower), and the override explanation appended at the end carries exactly the
incremental weight needed to reach 18, which is never negative. -/
theorem C1_self_harm_plan_override (a : List (String × String))
    (h : is_yes (dictGetD a "rapid_self_harm_plan") = some true) :
    (compute_rapid_risk a).level = "RED" ∧
    18 ≤ (compute_rapid_risk a).score ∧
    (compute_rapid_risk a).score = max (rapid_additive a).score 18 ∧
    (compute_rapid_risk a).explanations =
      (rapid_additive a).explanations ++
        [⟨"self_harm_plan", max 0 (18 - (rapid_additive a).score),
          "Self-harm plan or intent"⟩] ∧
    0 ≤ max 0 (18 - (rapid_additive a).score) := by
  have hb : (is_yes (dictGetD a "rapid_self_harm_plan") == some true) = true := by
    rw [h]; rfl
  refine ⟨by simp [compute_rapid_risk, hb],
    by simp [compute_rapid_risk, hb, le_max_right],
    by simp [compute_rapid_risk, hb], ?_, by omega⟩
  simp [compute_rapid_risk, hb]
  omega

/-- Witness for C1 at a concrete answer map with an affirmative plan answer. -/
theorem C1_self_harm_plan_override_witness :
    (compute_rapid_risk [("rapid_self_harm_plan", "yes")]).level = "RED" ∧
    18 ≤ (compute_rapid_risk [("rapid_self_harm_plan", "yes")]).score ∧
    (compute_rapid_risk [("rapid_self_harm_plan", "yes")]).score =
      max (rapid_additive [("rapid_self_harm_plan", "yes")]).score 18 ∧
    (compute_rapid_risk [("rapid_self_harm_plan", "yes")]).explanations =
      (rapid_additive [("rapid_self_harm_plan", "yes")]).explanations ++
        [⟨"self_harm_plan",
          max 0 (18 - (rapid_additive [("rapid_self_harm_plan", "yes")]).score),
          "Self-harm plan or intent"⟩] ∧
    0 ≤ max 0 (18 - (rapid_additive [("rapid_self_harm_plan", "yes")]).score) :=
  C1_self_harm_plan_override [("rapid_self_harm_plan", "yes")] (by decide)

/-- C10: a completion time strictly between 59 and 60 seconds earns neither
timing bonus, so with no quality flags `compute_rapid_confidence_score`
returns exactly 0.6. -/
theorem C10_confidence_timing_gap (t : ℚ) (h59 : 59 < t) (h60 : t < 60) :
    compute_rapid_confidence_score t [] = 6/10 := by
  have h1 : ¬ (t ≥ 60) := by linarith
  have h2 : ¬ (35 ≤ t ∧ t ≤ 59) := by rintro ⟨_, hx⟩; linarith
  rw [compute_rapid_confidence_score]
  simp only [h1, h2, if_false, List.contains_nil]
  norm_num

/-- Witness for C10 at `t = 59.5`. -/
theorem C10_confidence_timing_gap_witness :
    (59 : ℚ) < 119/2 ∧ (119/2 : ℚ) < 60 ∧
    compute_rapid_confidence_score (119/2) [] = 6/10 :=
  ⟨by norm_num, by norm_num,
    C10_confidence_timing_gap (119/2) (by norm_num) (by norm_num)⟩

/-- C2 counterexample: today 4.5 against baseline mean 6.0 with std 2.0 gives
delta −1.5 and a computable z-score of −0.75, strictly between −1 and 1; the
claim then demands status `stable`, but `compute_drift` classifies this signal
`down` through the raw-delta threshold. -/
theorem C2_counterexample :
    lookupOpt (compute_drift [("mood_score", 9/2)] [("mood_score", ⟨some 6, some 2⟩)])
        "mood_score" =
      some ⟨some (-(3/2)), some (-(3/4)), "down"⟩ ∧
    (0 : ℚ) < 2 ∧ (-1 : ℚ) < -(3/4) ∧ (-(3/4) : ℚ) < 1 ∧
    ("down" : String) ≠ "stable" := by
  refine ⟨?_, by norm_num, by norm_num, by norm_num, by decide⟩
  have he : compute_drift_entry (some (9/2)) ⟨some 6, some 2⟩ =
      ⟨some (-(3/2)), some (-(3/4)), "down"⟩ := by
    simp [compute_drift_entry, classify_drift, pyRound2, round_eq]
    norm_num [Int.floor_eq_iff]
  simp [compute_drift, SIGNAL_KEYS, lookupOpt, List.find?, he]

/-- C2 (amended): when today and the baseline mean are present and the baseline
std is strictly positive (so a z-score is computable), `compute_drift`
classifies by z only at the extremes (`z ≤ −1` is `down`, `z ≥ 1` is `up`);
for −1 < z < 1 it falls through to the raw-delta ±1.0 thresholds, and the
status is `stable` only when the delta also lies strictly between −1 and 1. -/
theorem C2_z_then_delta_fallthrough (t m s : ℚ) (hs : 0 < s) :
    compute_drift_entry (some t) ⟨some m, some s⟩ =
      { delta := some (pyRound2 (t - m))
        z := some (pyRound2 (pyRound2 (t - m) / s))
        status :=
          if pyRound2 (pyRound2 (t - m) / s) ≤ -1 then "down"
          else if pyRound2 (pyRound2 (t - m) / s) ≥ 1 then "up"
          else if pyRound2 (t - m) ≤ -1 then "down"
          else if pyRound2 (t - m) ≥ 1 then "up"
          else "stable" } := by
  simp [compute_drift_entry, classify_drift, hs]

/-- Witness for the amended C2 at today 4.5, mean 6.0, std 2.0. -/
theorem C2_z_then_delta_fallthrough_witness :
    (0 : ℚ) < 2 ∧
    compute_drift_entry (some (9/2)) ⟨some 6, some 2⟩ =
      { delta := some (pyRound2 ((9:ℚ)/2 - 6))
        z := some (pyRound2 (pyRound2 ((9:ℚ)/2 - 6) / 2))
        status :=
          if pyRound2 (pyRound2 ((9:ℚ)/2 - 6) / 2) ≤ -1 then "down"
          else if pyRound2 (pyRound2 ((9:ℚ)/2 - 6) / 2) ≥ 1 then "up"
          else if pyRound2 ((9:ℚ)/2 - 6) ≤ -1 then "down"
          else if pyRound2 ((9:ℚ)/2 - 6) ≥ 1 then "up"
          else "stable" } :=
  ⟨by norm_num, C2_z_then_delta_fallthrough (9/2) 6 2 (by norm_num)⟩

/-- C5 counterexample: the daily answer "5" in category `mood` parses to 5,
which is inside the 1–10 input range, but the normalized value is 40/9 ≈ 4.44,
not 5 — the 1–10 → 0–10 rescale is affine, not the identity. -/
theorem C5_counterexample :
    parse_first_number "5" = some 5 ∧ (1 : ℚ) ≤ 5 ∧ (5 : ℚ) ≤ 10 ∧
    normalize_daily_answer "mood" "5" = some ("mood_score", 40/9) ∧
    (40/9 : ℚ) ≠ 5 := by
  refine ⟨?_, by norm_num, by norm_num, ?_, by norm_num⟩
  · simp [parse_first_number, findFirstNumber, parseNumAt, decimalValue, digitsToNat,
      List.takeWhile, List.dropWhile]
  · simp [normalize_daily_answer, parse_first_number, findFirstNumber, parseNumAt,
      decimalValue, digitsToNat, List.takeWhile, List.dropWhile, normalize_scale, clamp]
    norm_num

/-- C5 (amended): for a numeric category answer whose first extracted number v
lies in the 1–10 input range, the returned signal value is the affine rescale
(v − 1)/9·10 of [1,10] onto [0,10] (which equals v only at v = 10), under the
signal key `<category>_score`. -/
theorem C5_numeric_affine_rescale (category text : String) (v : ℚ)
    (hcat : category = "mood" ∨ category = "anxiety" ∨ category = "energy" ∨
      category = "hopelessness")
    (hparse : parse_first_number text = some v) (h1 : 1 ≤ v) (h10 : v ≤ 10) :
    normalize_daily_answer category text =
      some (category ++ "_score", (v - 1) / 9 * 10) := by
  have hns : normalize_scale v 1 10 10 = (v - 1) / 9 * 10 := by
    rw [normalize_scale, if_neg (by norm_num), clamp]
    have he : (v - 1) / (10 - 1) * 10 = (v - 1) / 9 * 10 := by norm_num
    have hlin : (v - 1) / 9 * 10 = (10/9) * v - 10/9 := by ring
    have h0 : (0:ℚ) ≤ (v - 1) / 9 * 10 := by rw [hlin]; linarith
    have hup : (v - 1) / 9 * 10 ≤ 10 := by rw [hlin]; linarith
    rw [he, min_eq_right hup, max_eq_right h0]
  rcases hcat with rfl | rfl | rfl | rfl <;>
    simp [normalize_daily_answer, hparse, hns]

/-- Witness for the amended C5 at category `mood`, answer "7". -/
theorem C5_numeric_affine_rescale_witness :
    normalize_daily_answer "mood" "7" = some ("mood_score", ((7:ℚ) - 1) / 9 * 10) :=
  C5_numeric_affine_rescale "mood" "7" 7 (Or.inl rfl)
    (by simp [parse_first_number, findFirstNumber, parseNumAt, decimalValue,
      digitsToNat, List.takeWhile, List.dropWhile])
    (by norm_num) (by norm_num)

/-- C9: `normalize_scale` always lands in `[0, target_max]` (for a
nonnegative target bound — every call site uses 10 or the default), the
normalized sleep signal is always in `[0, 12]`, and parsed numeric values are
clamped rather than rejected: any sleep answer with a parsed number yields
`some`, as does any `mood` answer with a parsed number. -/
theorem C9_clamped_outputs (value source_min source_max target_max : ℚ)
    (htm : 0 ≤ target_max) :
    (0 ≤ normalize_scale value source_min source_max target_max ∧
      normalize_scale value source_min source_max target_max ≤ target_max) ∧
    (∀ text v, parse_first_number text = some v →
      normalize_daily_answer "sleep" text = some ("sleep_hours", clamp v 0 12) ∧
      0 ≤ clamp v 0 12 ∧ clamp v 0 12 ≤ 12) ∧
    (∀ text v, parse_first_number text = some v →
      normalize_daily_answer "mood" text =
        some ("mood_score", normalize_scale v 1 10 10)) := by
  refine ⟨?_, fun text v hp => ⟨?_, ?_, ?_⟩, fun text v hp => ?_⟩
  · rw [normalize_scale]
    split <;>
      exact ⟨le_max_left _ _, max_le htm (min_le_left _ _)⟩
  · simp [normalize_daily_answer, hp]
  · exact le_max_left _ _
  · exact max_le (by norm_num) (min_le_left _ _)
  · simp [normalize_daily_answer, hp]

/-- Witness for C9 with target 10 and the out-of-range sleep answer "15". -/
theorem C9_clamped_outputs_witness :
    (0 ≤ normalize_scale 15 1 10 10 ∧ normalize_scale 15 1 10 10 ≤ 10) ∧
    (normalize_daily_answer "sleep" "15" = some ("sleep_hours", clamp 15 0 12) ∧
      0 ≤ clamp (15:ℚ) 0 12 ∧ clamp (15:ℚ) 0 12 ≤ 12) := by
  have hp : parse_first_number "15" = some 15 := by
    simp [parse_first_number, findFirstNumber, parseNumAt, decimalValue, digitsToNat,
      List.takeWhile, List.dropWhile]
  exact ⟨(C9_clamped_outputs 15 1 10 10 (by norm_num)).1,
    (C9_clamped_outputs 15 1 10 10 (by norm_num)).2.1 "15" 15 hp⟩

/-- C4: `compute_signal_stats` leaves mean/median/std null unless
`samples ≥ 7` and `coverage_percent ≥ 70`; when the gate passes they are the
arithmetic mean, the median and the population standard deviation, each
rounded to 2 decimals (the single-sample `std = 0` convention is subsumed:
the gate forces `samples ≥ 7 ≥ 2`); with `window_days = 10` and exactly 7
values the coverage is exactly 70.0 and all three are non-null, and with
fewer than 7 values all three are null regardless of coverage. -/
theorem C4_stats_gate (values : List ℚ) (total_days : ℕ) :
    ((values.length ≥ 7 ∧ (compute_signal_stats values total_days).coverage_percent ≥ 70) →
      (compute_signal_stats values total_days).mean = some (pyRound2 (listMean values)) ∧
      (compute_signal_stats values total_days).median = some (pyRound2 (listMedian values)) ∧
      (compute_signal_stats values total_days).std = some (pyRound2R (pstdev values))) ∧
    (¬ (values.length ≥ 7 ∧ (compute_signal_stats values total_days).coverage_percent ≥ 70) →
      (compute_signal_stats values total_days).mean = none ∧
      (compute_signal_stats values total_days).median = none ∧
      (compute_signal_stats values total_days).std = none) ∧
    (values.length < 7 →
      (compute_signal_stats values total_days).mean = none ∧
      (compute_signal_stats values total_days).median = none ∧
      (compute_signal_stats values total_days).std = none) ∧
    (total_days = 10 → values.length = 7 →
      (compute_signal_stats values total_days).coverage_percent = 70 ∧
      (compute_signal_stats values total_days).mean ≠ none ∧
      (compute_signal_stats values total_days).median ≠ none ∧
      (compute_signal_stats values total_days).std ≠ none) := by
  simp only [compute_signal_stats]
  by_cases h0 : total_days = 0
  · simp only [if_pos h0]
    have hg : ¬ (values.length ≥ 7 ∧ (0:ℚ) ≥ 70) := by rintro ⟨_, hc⟩; norm_num at hc
    rw [if_neg hg]
    dsimp only
    exact ⟨fun hp => absurd hp hg, fun _ => ⟨rfl, rfl, rfl⟩, fun _ => ⟨rfl, rfl, rfl⟩,
      fun ht _ => absurd (h0 ▸ ht) (by norm_num)⟩
  · simp only [if_neg h0]
    split
    next hg =>
      dsimp only
      refine ⟨fun _ => ⟨rfl, rfl, ?_⟩, fun hn => absurd hg hn,
        fun hlt => absurd hg.1 (by omega), fun ht hl => ⟨?_, by simp, by simp, by simp⟩⟩
      · rw [if_pos (le_trans (by norm_num) hg.1 : 2 ≤ values.length)]
      · subst ht
        rw [hl, pyRound2, round_eq]
        norm_num
    next hg =>
      dsimp only
      refine ⟨fun hp => absurd hp hg, fun _ => ⟨rfl, rfl, rfl⟩, fun _ => ⟨rfl, rfl, rfl⟩,
        fun ht hl => ?_⟩
      exfalso
      apply hg
      refine ⟨by omega, ?_⟩
      subst ht
      rw [hl, pyRound2, round_eq]
      norm_num

/-- Witness for C4 with 7 values in a 10-day window. -/
theorem C4_stats_gate_witness :
    (compute_signal_stats [4, 4, 4, 4, 4, 4, 4] 10).coverage_percent = 70 ∧
    (compute_signal_stats [4, 4, 4, 4, 4, 4, 4] 10).mean ≠ none ∧
    (compute_signal_stats [4, 4, 4, 4, 4, 4, 4] 10).median ≠ none ∧
    (compute_signal_stats [4, 4, 4, 4, 4, 4, 4] 10).std ≠ none :=
  (C4_stats_gate [4, 4, 4, 4, 4, 4, 4] 10).2.2.2 rfl rfl

/-- C8 counterexample: four identical non-attention answers are 100 percent
identical (≥ 80 percent), yet `detect_patterned_answers` returns `False`,
because the code requires at least 5 collected values before either test. -/
theorem C8_counterexample :
    detect_patterned_answers [("a","yes"),("b","yes"),("c","yes"),("d","yes")] = false ∧
    patterned_values [("a","yes"),("b","yes"),("c","yes"),("d","yes")] =
      ["yes","yes","yes","yes"] ∧
    (8:ℚ)/10 ≤ (most_common_count ["yes","yes","yes","yes"] : ℚ) / 4 := by
  refine ⟨by decide, by decide, ?_⟩
  have h : most_common_count ["yes","yes","yes","yes"] = 4 := by decide
  rw [h]
  norm_num

/-- C8 (amended): `detect_patterned_answers` flags exactly when there are at
least 5 non-attention-check, non-empty answers and the most common answer
accounts for at least 80 percent of them (the all-identical test is subsumed
by the 80-percent test once the ≥ 5 gate holds). -/
theorem C8_amended (answers : List (String × String)) :
    detect_patterned_answers answers = true ↔
      (5 ≤ (patterned_values answers).length ∧
        4 * (patterned_values answers).length ≤
          5 * most_common_count (patterned_values answers)) := by
  rw [detect_patterned_answers]
  by_cases h5 : (patterned_values answers).length < 5
  · simp only [if_pos h5]
    simp
    omega
  · rw [if_neg h5]
    by_cases hmc : most_common_count (patterned_values answers) = (patterned_values answers).length
    · rw [if_pos hmc]
      simp only [true_iff]
      omega
    · rw [if_neg hmc]
      rw [decide_eq_true_iff]
      have hlen : (0:ℚ) < ((patterned_values answers).length : ℚ) := by
        have : 0 < (patterned_values answers).length := by omega
        exact_mod_cast this
      rw [ge_iff_le, div_le_div_iff₀ (by norm_num : (0:ℚ) < 10) hlen]
      constructor
      · intro h
        refine ⟨by omega, ?_⟩
        have h' : 8 * (patterned_values answers).length ≤
            most_common_count (patterned_values answers) * 10 := by exact_mod_cast h
        omega
      · rintro ⟨-, h⟩
        have h' : 8 * (patterned_values answers).length ≤
            most_common_count (patterned_values answers) * 10 := by omega
        exact_mod_cast h'

/-- Witness for the amended C8 at five identical answers. -/
theorem C8_amended_witness :
    detect_patterned_answers
      [("a","1"),("b","1"),("c","1"),("d","1"),("e","1")] = true :=
  (C8_amended [("a","1"),("b","1"),("c","1"),("d","1"),("e","1")]).mpr
    ⟨by decide, by decide⟩

/-- C6: `assess_input_quality` starts at 100, subtracts the fixed per-flag
deductions (too_short 15, low_word_count 15, repeated_characters 10,
keyboard_smash 10, repeated_tokens 10, profanity_only 20, duplicate_recent 25,
rapid_submissions 10), clamps to [0, 100], and sets `is_low_quality` exactly
when the score is below 60; the input "hi" is flagged both `too_short` and
`low_word_count` and scores below 100. -/
theorem C6_quality_score (text : String) (recent_texts : List String)
    (short_window_count : ℕ) :
    (assess_input_quality text recent_texts short_window_count).quality_score =
      max 0 (min 100 (100 -
        ((if tooShortFlag text then (15:ℤ) else 0) +
         (if lowWordCountFlag text then 15 else 0) +
         (if repeatedCharactersFlag text then 10 else 0) +
         (if keyboardSmashFlag text then 10 else 0) +
         (if repeatedTokensFlag text then 10 else 0) +
         (if profanityOnlyFlag text then 20 else 0) +
         (if duplicateRecentFlag text recent_texts then 25 else 0) +
         (if rapidSubmissionsFlag short_window_count then 10 else 0)))) ∧
    ((assess_input_quality text recent_texts short_window_count).is_low_quality = true ↔
      (assess_input_quality text recent_texts short_window_count).quality_score < 60) ∧
    "too_short" ∈ (assess_input_quality "hi" recent_texts short_window_count).flags ∧
    "low_word_count" ∈ (assess_input_quality "hi" recent_texts short_window_count).flags ∧
    (assess_input_quality "hi" recent_texts short_window_count).quality_score < 100 := by
  have hmap : ∀ (l : List String) (b : Bool) (s : String),
      (((l ++ (if b then [s] else []))).map quality_deduction).sum =
        (l.map quality_deduction).sum + (if b then quality_deduction s else 0) := by
    intro l b s; cases b <;> simp
  have hlast : ∀ (b : Bool) (s : String),
      ((if b then [s] else []).map quality_deduction).sum =
        (if b then quality_deduction s else 0) := by
    intro b s; cases b <;> simp
  have hscore : ∀ t r c, (assess_input_quality t r c).quality_score =
      max 0 (min 100 (100 -
        ((if tooShortFlag t then (15:ℤ) else 0) +
         (if lowWordCountFlag t then 15 else 0) +
         (if repeatedCharactersFlag t then 10 else 0) +
         (if keyboardSmashFlag t then 10 else 0) +
         (if repeatedTokensFlag t then 10 else 0) +
         (if profanityOnlyFlag t then 20 else 0) +
         (if duplicateRecentFlag t r then 25 else 0) +
         (if rapidSubmissionsFlag c then 10 else 0)))) := by
    intro t r c
    simp only [assess_input_quality, quality_flags_of]
    rw [hmap, hmap, hmap, hmap, hmap, hmap, hmap, hlast]
    simp only [quality_deduction]
    simp
  have hts : tooShortFlag "hi" = true := by decide
  have hlw : lowWordCountFlag "hi" = true := by
    simp [lowWordCountFlag, tokensOf, pyLower, pyStrip, isWordChar,
      List.takeWhile, List.dropWhile]
  have hrc : repeatedCharactersFlag "hi" = false := by decide
  have hks : keyboardSmashFlag "hi" = false := by decide
  have hrt : repeatedTokensFlag "hi" = false := by
    simp [repeatedTokensFlag, tokensOf, pyLower, pyStrip, isWordChar,
      List.takeWhile, List.dropWhile]
    norm_num
  have hpo : profanityOnlyFlag "hi" = false := by
    simp [profanityOnlyFlag, tokensOf, pyLower, pyStrip, isWordChar,
      List.takeWhile, List.dropWhile, profanitySet]
  refine ⟨hscore text recent_texts short_window_count, ?_, ?_, ?_, ?_⟩
  · simp [assess_input_quality]
  · simp [assess_input_quality, quality_flags_of, hts]
  · simp [assess_input_quality, quality_flags_of, hts, hlw]
  · rw [hscore "hi" recent_texts short_window_count]
    rw [hts, hlw, hrc, hks, hrt, hpo]
    rcases hdr : duplicateRecentFlag "hi" recent_texts <;>
      rcases hrs : rapidSubmissionsFlag short_window_count <;>
      norm_num

/-- Witness for C6 at the input "hi" with no recent texts. -/
theorem C6_quality_score_witness :
    "too_short" ∈ (assess_input_quality "hi" [] 0).flags ∧
    "low_word_count" ∈ (assess_input_quality "hi" [] 0).flags ∧
    (assess_input_quality "hi" [] 0).quality_score < 100 :=
  ⟨(C6_quality_score "hi" [] 0).2.2.1, (C6_quality_score "hi" [] 0).2.2.2.1,
   (C6_quality_score "hi" [] 0).2.2.2.2⟩

/-- C3: `detect_crisis` evaluates the HIGH tier first and short-circuits — a
HIGH pattern match in the lower-cased space-joined texts or a truthy
`self_harm_plan`/`self_harm_intent` flag yields `is_crisis = True` with level
"high" regardless of the elevated conditions; when neither tier triggers it
returns `is_crisis = False`, level "none" and an empty reason (no error). -/
theorem C3_crisis_priority (texts : List String) (structured : CrisisStructured) :
    ((high_matches (pyLower (String.intercalate " " texts)) ≠ [] ∨
        structured.self_harm_plan = true ∨ structured.self_harm_intent = true) →
      (detect_crisis texts structured).is_crisis = true ∧
      (detect_crisis texts structured).level = "high") ∧
    ((high_matches (pyLower (String.intercalate " " texts)) = [] ∧
      structured.self_harm_plan = false ∧ structured.self_harm_intent = false ∧
      elevated_condition (pyLower (String.intercalate " " texts)) structured = false) →
      (detect_crisis texts structured).is_crisis = false ∧
      (detect_crisis texts structured).level = "none" ∧
      (detect_crisis texts structured).reason = "") := by
  constructor
  · intro h
    by_cases hf : (structured.self_harm_plan || structured.self_harm_intent) = true
    · have hne : high_matches (pyLower (String.intercalate " " texts)) ++
          ["self_harm_plan"] ≠ [] := by simp
      simp [detect_crisis, hf, hne]
    · have hb : high_matches (pyLower (String.intercalate " " texts)) ≠ [] := by
        rcases h with h | h | h
        · exact h
        · exact absurd (by simp [h]) hf
        · exact absurd (by simp [h]) hf
      simp [detect_crisis, hf, hb]
  · rintro ⟨h1, h2, h3, h4⟩
    have hf : (structured.self_harm_plan || structured.self_harm_intent) = false := by
      simp [h2, h3]
    simp [detect_crisis, hf, h1, h4]

/-- Witness for C3 with a truthy structured plan flag. -/
theorem C3_crisis_priority_witness :
    (detect_crisis [] ⟨true, false, false, none, none⟩).is_crisis = true ∧
    (detect_crisis [] ⟨true, false, false, none, none⟩).level = "high" :=
  (C3_crisis_priority [] ⟨true, false, false, none, none⟩).1 (Or.inr (Or.inl rfl))

/-! ### Hex-digest and SHA-256 output lemmas (for C7) -/

/-- Folding hex digits from an arbitrary accumulator. -/
theorem hexVal_foldl (l : List Char) (acc : ℕ) :
    l.foldl (fun a c => 16 * a + hexDigitVal c) acc =
      acc * 16 ^ l.length + hexVal l := by
  induction l generalizing acc with
  | nil => simp [hexVal]
  | cons c rest ih =>
    simp only [List.foldl_cons, List.length_cons, hexVal]
    rw [ih (16 * acc + hexDigitVal c), ih (16 * 0 + hexDigitVal c)]
    ring

/-- Hex parsing splits over append. -/
theorem hexVal_append (a b : List Char) :
    hexVal (a ++ b) = hexVal a * 16 ^ b.length + hexVal b := by
  rw [hexVal, List.foldl_append, ← hexVal, hexVal_foldl]

/-- Parsing inverts the hex digit encoding. -/
theorem hexDigitVal_hexChar (n : ℕ) (h : n < 16) :
    hexDigitVal (hexChar n) = n := by
  interval_cases n <;> decide

/-- Fixed-width hex has the requested width. -/
theorem length_toHexFixed (k n : ℕ) : (toHexFixed k n).length = k := by
  induction k generalizing n with
  | zero => rfl
  | succ k ih => simp [toHexFixed, ih]

/-- Splitting the low hex digit off a power-of-16 remainder. -/
theorem mod_pow_split (n k : ℕ) :
    n % 16 ^ (k + 1) = n / 16 % 16 ^ k * 16 + n % 16 := by
  have h1 : (16:ℕ) ^ (k + 1) = 16 * 16 ^ k := by rw [pow_succ]; ring
  have h2 : n % 16 ^ (k + 1) / 16 = n / 16 % 16 ^ k := by
    rw [h1, Nat.mod_mul_right_div_self]
  have h3 : n % 16 ^ (k + 1) % 16 = n % 16 := by
    exact Nat.mod_mod_of_dvd n (dvd_pow_self 16 (Nat.succ_ne_zero k))
  have h4 := Nat.div_add_mod (n % 16 ^ (k + 1)) 16
  omega

/-- Parsing inverts fixed-width hex encoding modulo the width. -/
theorem hexVal_toHexFixed (k n : ℕ) : hexVal (toHexFixed k n) = n % 16 ^ k := by
  induction k generalizing n with
  | zero => simp [toHexFixed, hexVal, Nat.mod_one]
  | succ k ih =>
    rw [toHexFixed, hexVal_append, ih]
    simp only [List.length_cons, List.length_nil, hexVal, List.foldl_cons, List.foldl_nil,
      hexDigitVal_hexChar (n % 16) (Nat.mod_lt _ (by norm_num))]
    rw [mod_pow_split]
    ring

/-- The compression function always yields 8 words. -/
theorem sha256Compress_length (h chunk : List ℕ) :
    (sha256Compress h chunk).length = 8 := by
  simp [sha256Compress]

/-- The compression function yields 32-bit words. -/
theorem sha256Compress_lt (h chunk : List ℕ) :
    ∀ w ∈ sha256Compress h chunk, w < 4294967296 := by
  intro w hw
  rw [sha256Compress] at hw
  simp only [List.mem_map] at hw
  obtain ⟨i, -, rfl⟩ := hw
  exact Nat.mod_lt _ (by norm_num)

/-- Compression keeps the 8-word 32-bit shape through any chunk list. -/
theorem foldl_compress_spec (cs : List (List ℕ)) (h : List ℕ)
    (hh : h.length = 8 ∧ ∀ w ∈ h, w < 4294967296) :
    (cs.foldl sha256Compress h).length = 8 ∧
      ∀ w ∈ cs.foldl sha256Compress h, w < 4294967296 := by
  induction cs generalizing h with
  | nil => exact hh
  | cons c cs ih =>
    exact ih (sha256Compress h c) ⟨sha256Compress_length _ _, sha256Compress_lt _ _⟩

/-- A SHA-256 digest is 8 words, each below 2^32. -/
theorem sha256Words_spec (msg : List ℕ) :
    (sha256Words msg).length = 8 ∧ ∀ w ∈ sha256Words msg, w < 4294967296 := by
  rw [sha256Words]
  exact foldl_compress_spec _ shaH0 ⟨rfl, by decide⟩

/-- The first 16 hex digits of the digest are the first two words. -/
theorem take16_digest (ws : List ℕ) (hlen : ws.length = 8) :
    ((ws.map (toHexFixed 8)).flatten).take 16 =
      toHexFixed 8 (ws.getD 0 0) ++ toHexFixed 8 (ws.getD 1 0) := by
  match ws, hlen with
  | [a, b, c, d, e, f, g, h], _ =>
    simp only [List.map_cons, List.map_nil, List.flatten, List.getD, List.getElem?_cons_zero,
      List.append_nil, Option.getD_some]
    rw [List.take_append_eq_append_take, List.take_of_length_le (by rw [length_toHexFixed]; norm_num),
      length_toHexFixed]
    norm_num
    rw [List.take_append_eq_append_take, List.take_of_length_le (by rw [length_toHexFixed]),
      length_toHexFixed]
    simp

/-- Parsing two 8-digit hex words gives the 64-bit big-endian value. -/
theorem hexVal_two_words (w0 w1 : ℕ) (h0 : w0 < 4294967296) (h1 : w1 < 4294967296) :
    hexVal (toHexFixed 8 w0 ++ toHexFixed 8 w1) = w0 * 4294967296 + w1 := by
  rw [hexVal_append, hexVal_toHexFixed, hexVal_toHexFixed, length_toHexFixed]
  rw [Nat.mod_eq_of_lt (by norm_num [h0] : w0 < 16 ^ 8),
    Nat.mod_eq_of_lt (by norm_num [h1] : w1 < 16 ^ 8)]
  norm_num

/-- C7: question rotation is deterministic.  The rotation seed is the first
16 hex digits of `SHA-256("{user_id}:{date}:{kind}:{salt}")` read as an
integer (equivalently the top two hash words, hence a 64-bit value), and two
calls of `select_questions_with_seed` with identical pool, missing categories,
recent ids, excluded ids, count and seed return the identical ordered
selection. -/
theorem C7_rotation_seed_and_determinism (user_id : ℕ) (date_iso kind : String)
    (questions : List Question) (missing_categories : List String)
    (recent_question_ids exclude_ids : List ℕ) (count : ℤ) (seedA seedB : ℕ)
    (hseed : seedA = seedB) :
    build_rotation_seed user_id date_iso kind =
      hexVal ((sha256HexDigest (utf8Bytes
        (rotation_seed_material user_id date_iso kind))).take 16) ∧
    build_rotation_seed user_id date_iso kind =
      (sha256Words (utf8Bytes (rotation_seed_material user_id date_iso kind))).getD 0 0 *
          4294967296 +
        (sha256Words (utf8Bytes (rotation_seed_material user_id date_iso kind))).getD 1 0 ∧
    build_rotation_seed user_id date_iso kind < 18446744073709551616 ∧
    select_questions_with_seed questions missing_categories recent_question_ids
        exclude_ids count seedA =
      select_questions_with_seed questions missing_categories recent_question_ids
        exclude_ids count seedB := by
  subst hseed
  obtain ⟨hlen, hlt⟩ :=
    sha256Words_spec (utf8Bytes (rotation_seed_material user_id date_iso kind))
  set ws := sha256Words (utf8Bytes (rotation_seed_material user_id date_iso kind)) with hws
  have h0 : ws.getD 0 0 < 4294967296 := by
    apply hlt
    rw [List.getD_eq_getElem _ _ (by omega)]
    exact List.getElem_mem _
  have h1 : ws.getD 1 0 < 4294967296 := by
    apply hlt
    rw [List.getD_eq_getElem _ _ (by omega)]
    exact List.getElem_mem _
  have heq : build_rotation_seed user_id date_iso kind =
      ws.getD 0 0 * 4294967296 + ws.getD 1 0 := by
    rw [build_rotation_seed, sha256HexDigest, ← hws, take16_digest ws hlen,
      hexVal_two_words _ _ h0 h1]
  exact ⟨rfl, heq, by rw [heq]; omega, rfl⟩

/-- Witness for C7 at a concrete user, date, kind and pool. -/
theorem C7_rotation_seed_and_determinism_witness :
    build_rotation_seed 1 "2025-01-01" "micro" =
      hexVal ((sha256HexDigest (utf8Bytes
        (rotation_seed_material 1 "2025-01-01" "micro"))).take 16) ∧
    build_rotation_seed 1 "2025-01-01" "micro" =
      (sha256Words (utf8Bytes (rotation_seed_material 1 "2025-01-01" "micro"))).getD 0 0 *
          4294967296 +
        (sha256Words (utf8Bytes (rotation_seed_material 1 "2025-01-01" "micro"))).getD 1 0 ∧
    build_rotation_seed 1 "2025-01-01" "micro" < 18446744073709551616 ∧
    select_questions_with_seed [⟨1, some "mood"⟩, ⟨2, some "sleep"⟩] [] [] [] 2 5 =
      select_questions_with_seed [⟨1, some "mood"⟩, ⟨2, some "sleep"⟩] [] [] [] 2 5 :=
  C7_rotation_seed_and_determinism 1 "2025-01-01" "micro"
    [⟨1, some "mood"⟩, ⟨2, some "sleep"⟩] [] [] [] 2 5 5 rfl
